import Mathlib

/-!
Shallow embedding of the inverse-direction pipeline of `src/pj_inv.c`
(`pj_inv_prepare`, `pj_inv_finalize`, and the entry points `pj_inv`,
`pj_inv3d`, `pj_inv4d`).

Modelling conventions:
* Doubles are modelled as real numbers.  The IEEE `HUGE_VAL` sentinel is
  modelled as the distinguished real constant `HUGE_VAL` (`2 ^ 1024`, larger
  than every finite double); the code only ever compares against it or
  substitutes it, so only its equality/order behaviour is relevant.
* The `PJ_COORD` union is a structure of four real slots `x, y, z, t`;
  in the angular view `x` is the longitude `lam` and `y` the latitude `phi`,
  exactly as in the C union (`v[0] = xyz.x = lp.lam`, `v[1] = xyz.y = lp.phi`).
* The descriptor `PJ` carries the fields read by this translation unit.
  Optional sub-operations (`axisswap`, `hgridshift`, `vgridshift`, `helmert`)
  are `Option`-valued opaque transformation functions, indexed by the
  direction they are invoked with (`proj_trans (op, dir, coo)` becomes
  `op dir coo`); `cart` and `cart_wgs84` are dereferenced unconditionally by
  the Helmert chain, hence total fields.  The dimensional transform slots
  `inv` / `inv3d` / `inv4d` are opaque functions with the descriptor
  argument curried away.
* The C reports errors by side effect (`proj_errno_set` on the shared
  descriptor).  The embedding returns, next to the coordinate, the error
  code set by this translation unit during the call (`none` when this file's
  code sets none; error codes set inside opaque sub-operations are not
  observable here).
-/

noncomputable section

open Classical

/-- Model of the IEEE `HUGE_VAL` sentinel: a distinguished real value larger
than any finite double magnitude; `pj_inv.c` only compares coordinates
against it (and substitutes it by `0`), never computes with it. -/
def HUGE_VAL : ℝ := 2 ^ 1024

/-- The constant `M_HALFPI` from the PROJ headers: π/2. -/
def M_HALFPI : ℝ := Real.pi / 2

/-- Modelled from the spec: `PJ_EPS_LAT`, the "small tolerance constant" ε of
the latitude range check, is defined in a header not part of `src/`; its
PROJ value is `1e-12`.  Only `0 < PJ_EPS_LAT < M_HALFPI` matters below. -/
def PJ_EPS_LAT : ℝ := 1e-12

/-- Modelled from the spec: `adjlon` is defined outside `src/`; per the spec
it normalizes a longitude into the half-open interval (−π, π]. -/
def adjlon (lam : ℝ) : ℝ :=
  lam - 2 * Real.pi * ((⌈(lam - Real.pi) / (2 * Real.pi)⌉ : ℤ) : ℝ)

/-- Direction argument of `proj_trans`. -/
inductive PJ_DIRECTION where
  | fwd
  | inv
deriving DecidableEq

/-- Error codes set by `pj_inv.c` itself: `PJD_ERR_INVALID_X_OR_Y`,
`PJD_ERR_LAT_OR_LON_EXCEED_LIMIT`, and `EINVAL` (no transform available). -/
inductive PJErr where
  | invalidXorY
  | latOrLonExceedLimit
  | einval
deriving DecidableEq

/-- The `PJ_IO_UNITS` enumeration: the unit kinds distinguished by the
units dispatch (`whatever` is the spec's "passthrough"). -/
inductive PJ_IO_UNITS where
  | whatever
  | classic
  | projected
  | cartesian
  | angular
deriving DecidableEq

/-- The `PJ_COORD` union: four double slots.  `x`/`y` double as `lam`/`phi`
in the angular view. -/
structure PJ_COORD where
  x : ℝ
  y : ℝ
  z : ℝ
  t : ℝ

/-- A sub-operation, used through `proj_trans` with an explicit direction. -/
def SubOp : Type := PJ_DIRECTION → PJ_COORD → PJ_COORD

/-- The fields of the `PJ` descriptor read by `pj_inv.c`.
`right` is `INPUT_UNITS`, `left` is `OUTPUT_UNITS` (macros at the top of the
file).  `ra` is the inverse semimajor scale, `vto_meter` the vertical unit
scale, `over` the allow-longitude-over-range flag, `geoc` the
geocentric-latitude flag.  `geocentric_latitude` models the external
`proj_geocentric_latitude`; per the spec (§4.5) it is a pure bidirectional
function of the latitude alone. -/
structure PJ where
  left : PJ_IO_UNITS
  right : PJ_IO_UNITS
  to_meter : ℝ
  vto_meter : ℝ
  ra : ℝ
  x0 : ℝ
  y0 : ℝ
  z0 : ℝ
  lam0 : ℝ
  from_greenwich : ℝ
  over : Bool
  geoc : Bool
  is_geocent : Bool
  skip_inv_prepare : Bool
  skip_inv_finalize : Bool
  axisswap : Option SubOp
  hgridshift : Option SubOp
  vgridshift : Option SubOp
  helmert : Option SubOp
  cart : SubOp
  cart_wgs84 : SubOp
  geocentric_latitude : PJ_DIRECTION → ℝ → ℝ
  inv : Option (ℝ × ℝ → ℝ × ℝ)
  inv3d : Option (ℝ × ℝ × ℝ → ℝ × ℝ × ℝ)
  inv4d : Option (PJ_COORD → PJ_COORD)

/-- Invocation of `proj_trans` on an opaque sub-operation. -/
def proj_trans (op : SubOp) (dir : PJ_DIRECTION) (coo : PJ_COORD) : PJ_COORD :=
  op dir coo

/-- The error coordinate `proj_coord_error ()`: all four slots are the
sentinel. -/
def proj_coord_error : PJ_COORD :=
  { x := HUGE_VAL, y := HUGE_VAL, z := HUGE_VAL, t := HUGE_VAL }

/-- Lines 44–46: substitute `0` for a sentinel third/fourth component when a
Helmert sub-operation is configured. -/
def helmertSubst (P : PJ) (coo : PJ_COORD) : PJ_COORD :=
  let coo := if coo.z = HUGE_VAL ∧ P.helmert.isSome = true then { coo with z := 0 } else coo
  if coo.t = HUGE_VAL ∧ P.helmert.isSome = true then { coo with t := 0 } else coo

/-- Lines 48–49: apply the axis-swap sub-operation (inverse sense) when
configured. -/
def applyAxisswap (P : PJ) (coo : PJ_COORD) : PJ_COORD :=
  match P.axisswap with
  | some f => proj_trans f PJ_DIRECTION.inv coo
  | none => coo

/-- Lines 56–57: the over-range condition of the angular range check,
exactly as computed (`t = |phi| − π/2` via the conditional negation). -/
def rangeExceeded (coo : PJ_COORD) : Prop :=
  (if coo.y < 0 then -coo.y else coo.y) - M_HALFPI > PJ_EPS_LAT ∨
    coo.x > 10 ∨ coo.x < -10

/-- Lines 62–66: clamp the latitude to the [−π/2, π/2] range (two sequential
conditional assignments, as in the C). -/
def clampLat (phi : ℝ) : ℝ :=
  let phi := if phi > M_HALFPI then M_HALFPI else phi
  if phi < -M_HALFPI then -M_HALFPI else phi

/-- The clamping step applied to a coordinate (latitude slot only). -/
def clampStep (coo : PJ_COORD) : PJ_COORD :=
  { coo with y := clampLat coo.y }

/-- Lines 68–70: geocentric → geographic latitude conversion when `geoc`. -/
def geocInvStep (P : PJ) (coo : PJ_COORD) : PJ_COORD :=
  if P.geoc then { coo with y := P.geocentric_latitude PJ_DIRECTION.inv coo.y } else coo

/-- Lines 72–77: subtract the central meridian (taking the system zero
meridian into account) and, unless over-range is allowed, normalize the
longitude with `adjlon`. -/
def meridianAdjust (P : PJ) (coo : PJ_COORD) : PJ_COORD :=
  let coo := { coo with x := (coo.x + P.from_greenwich) - P.lam0 }
  if P.over = false then { coo with x := adjlon coo.x } else coo

/-- Lines 79–85 (and the identical lines 155–161 of finalize): the horizontal
datum correction — grid shift forward, else the Helmert chain (local
cartesian forward, Helmert forward, WGS84 cartesian inverse). -/
def datumShiftFwd (P : PJ) (coo : PJ_COORD) : PJ_COORD :=
  match P.hgridshift with
  | some f => proj_trans f PJ_DIRECTION.fwd coo
  | none =>
    match P.helmert with
    | some h =>
        proj_trans P.cart_wgs84 PJ_DIRECTION.inv
          (proj_trans h PJ_DIRECTION.fwd (proj_trans P.cart PJ_DIRECTION.fwd coo))
    | none => coo

/-- Lines 79–90: datum correction, sentinel check (early return), then the
vertical grid shift in its inverse sense. -/
def prepShiftStage (P : PJ) (coo : PJ_COORD) : PJ_COORD :=
  let coo := datumShiftFwd P coo
  if coo.x = HUGE_VAL then coo
  else
    match P.vgridshift with
    | some f => proj_trans f PJ_DIRECTION.inv coo
    | none => coo

/-- Lines 52–130: the units dispatch of `pj_inv_prepare`, after the sentinel
check, Helmert substitution, and axis swap have been applied. -/
def pj_inv_prepare_units (P : PJ) (coo : PJ_COORD) : PJ_COORD × Option PJErr :=
  if P.right = PJ_IO_UNITS.angular then
    if rangeExceeded coo then (proj_coord_error, some PJErr.latOrLonExceedLimit)
    else (prepShiftStage P (meridianAdjust P (geocInvStep P (clampStep coo))), none)
  else
    match P.right with
    | PJ_IO_UNITS.whatever => (coo, none)
    | PJ_IO_UNITS.cartesian =>
        let coo := { coo with x := P.to_meter * coo.x - P.x0,
                              y := P.to_meter * coo.y - P.y0,
                              z := P.to_meter * coo.z - P.z0 }
        (if P.is_geocent then proj_trans P.cart PJ_DIRECTION.inv coo else coo, none)
    | PJ_IO_UNITS.projected | PJ_IO_UNITS.classic =>
        let coo := { coo with x := P.to_meter * coo.x - P.x0,
                              y := P.to_meter * coo.y - P.y0,
                              z := P.vto_meter * coo.z - P.z0 }
        if P.right = PJ_IO_UNITS.projected then (coo, none)
        else ({ coo with x := coo.x * P.ra, y := coo.y * P.ra }, none)
    | PJ_IO_UNITS.angular => (coo, none)

/-- Lines 38–131: `pj_inv_prepare`. -/
def pj_inv_prepare (P : PJ) (coo : PJ_COORD) : PJ_COORD × Option PJErr :=
  if coo.x = HUGE_VAL then (proj_coord_error, some PJErr.invalidXorY)
  else pj_inv_prepare_units P (applyAxisswap P (helmertSubst P coo))

/-- Lines 166–168: geographic → geocentric latitude conversion when `geoc`. -/
def geocFwdStep (P : PJ) (coo : PJ_COORD) : PJ_COORD :=
  if P.geoc then { coo with y := P.geocentric_latitude PJ_DIRECTION.fwd coo.y } else coo

/-- Lines 144–149: re-add the central meridian and normalize the longitude
unless over-range is allowed. -/
def meridianReAdd (P : PJ) (coo : PJ_COORD) : PJ_COORD :=
  let coo := { coo with x := coo.x + P.from_greenwich + P.lam0 }
  if P.over = false then { coo with x := adjlon coo.x } else coo

/-- Lines 151–152: the vertical grid shift in its inverse sense. -/
def vgridStep (P : PJ) (coo : PJ_COORD) : PJ_COORD :=
  match P.vgridshift with
  | some f => proj_trans f PJ_DIRECTION.inv coo
  | none => coo

/-- Lines 153–168: sentinel check (early return), horizontal datum
correction, second sentinel check (early return), geocentric latitude
restoration. -/
def finTail (P : PJ) (coo : PJ_COORD) : PJ_COORD :=
  if coo.x = HUGE_VAL then coo
  else
    let coo := datumShiftFwd P coo
    if coo.x = HUGE_VAL then coo
    else geocFwdStep P coo

/-- Lines 135–172: `pj_inv_finalize`. -/
def pj_inv_finalize (P : PJ) (coo : PJ_COORD) : PJ_COORD × Option PJErr :=
  if coo.x = HUGE_VAL then (proj_coord_error, some PJErr.invalidXorY)
  else if P.left = PJ_IO_UNITS.angular then
    if P.right ≠ PJ_IO_UNITS.angular then
      (finTail P (vgridStep P (meridianReAdd P coo)), none)
    else (geocFwdStep P coo, none)
  else (coo, none)

/-- Assignment `coo.lp = r`: overwrite the first two slots. -/
def setlp (coo : PJ_COORD) (r : ℝ × ℝ) : PJ_COORD :=
  { coo with x := r.1, y := r.2 }

/-- Assignment `coo.lpz = r`: overwrite the first three slots. -/
def setlpz (coo : PJ_COORD) (r : ℝ × ℝ × ℝ) : PJ_COORD :=
  { coo with x := r.1, y := r.2.1, z := r.2.2 }

/-- Lines 185–195: the 2D dispatch — lowest dimensional transformer
available, order `inv`, `inv3d`, `inv4d`, else `EINVAL`. -/
def dispatch2d (P : PJ) (coo : PJ_COORD) : PJ_COORD × Option PJErr :=
  match P.inv with
  | some f => (setlp coo (f (coo.x, coo.y)), none)
  | none =>
    match P.inv3d with
    | some f => (setlpz coo (f (coo.x, coo.y, coo.z)), none)
    | none =>
      match P.inv4d with
      | some f => (f coo, none)
      | none => (proj_coord_error, some PJErr.einval)

/-- Lines 215–225: the 3D dispatch — order `inv3d`, `inv4d`, `inv`. -/
def dispatch3d (P : PJ) (coo : PJ_COORD) : PJ_COORD × Option PJErr :=
  match P.inv3d with
  | some f => (setlpz coo (f (coo.x, coo.y, coo.z)), none)
  | none =>
    match P.inv4d with
    | some f => (f coo, none)
    | none =>
      match P.inv with
      | some f => (setlp coo (f (coo.x, coo.y)), none)
      | none => (proj_coord_error, some PJErr.einval)

/-- Lines 242–252: the 4D dispatch — order `inv4d`, `inv3d`, `inv`. -/
def dispatch4d (P : PJ) (coo : PJ_COORD) : PJ_COORD × Option PJErr :=
  match P.inv4d with
  | some f => (f coo, none)
  | none =>
    match P.inv3d with
    | some f => (setlpz coo (f (coo.x, coo.y, coo.z)), none)
    | none =>
      match P.inv with
      | some f => (setlp coo (f (coo.x, coo.y)), none)
      | none => (proj_coord_error, some PJErr.einval)

/-- Lines 176–202: the 2D entry point `pj_inv`.  Returns the `lp` view of
the result together with the error code set by this file's code, if any. -/
def pj_inv (xy : ℝ × ℝ) (P : PJ) : (ℝ × ℝ) × Option PJErr :=
  let coo : PJ_COORD := { x := xy.1, y := xy.2, z := 0, t := 0 }
  let pr := if P.skip_inv_prepare then (coo, none) else pj_inv_prepare P coo
  if pr.1.x = HUGE_VAL then ((HUGE_VAL, HUGE_VAL), pr.2)
  else
    let d := dispatch2d P pr.1
    if d.1.x = HUGE_VAL then ((HUGE_VAL, HUGE_VAL), d.2)
    else
      let fr := if P.skip_inv_finalize then (d.1, none) else pj_inv_finalize P d.1
      ((fr.1.x, fr.1.y), fr.2)

/-- Lines 206–232: the 3D entry point `pj_inv3d`. -/
def pj_inv3d (xyz : ℝ × ℝ × ℝ) (P : PJ) : (ℝ × ℝ × ℝ) × Option PJErr :=
  let coo : PJ_COORD := { x := xyz.1, y := xyz.2.1, z := xyz.2.2, t := 0 }
  let pr := if P.skip_inv_prepare then (coo, none) else pj_inv_prepare P coo
  if pr.1.x = HUGE_VAL then ((HUGE_VAL, HUGE_VAL, HUGE_VAL), pr.2)
  else
    let d := dispatch3d P pr.1
    if d.1.x = HUGE_VAL then ((HUGE_VAL, HUGE_VAL, HUGE_VAL), d.2)
    else
      let fr := if P.skip_inv_finalize then (d.1, none) else pj_inv_finalize P d.1
      ((fr.1.x, fr.1.y, fr.1.z), fr.2)

/-- Lines 236–258: the 4D entry point `pj_inv4d`. -/
def pj_inv4d (coo : PJ_COORD) (P : PJ) : PJ_COORD × Option PJErr :=
  let pr := if P.skip_inv_prepare then (coo, none) else pj_inv_prepare P coo
  if pr.1.x = HUGE_VAL then (proj_coord_error, pr.2)
  else
    let d := dispatch4d P pr.1
    if d.1.x = HUGE_VAL then (proj_coord_error, d.2)
    else
      if P.skip_inv_finalize then (d.1, none) else pj_inv_finalize P d.1

/-! Concrete descriptors and coordinates used to instantiate the theorems
below on explicit inputs. -/

/-- A sample 2D core transform (shifts the first slot by 2). -/
def tf2 : ℝ × ℝ → ℝ × ℝ := fun p => (p.1 + 2, p.2)

/-- A sample 3D core transform (shifts the first slot by 3). -/
def tf3 : ℝ × ℝ × ℝ → ℝ × ℝ × ℝ := fun p => (p.1 + 3, p.2.1, p.2.2)

/-- A sample 4D core transform (shifts the first slot by 4). -/
def tf4 : PJ_COORD → PJ_COORD := fun c => { c with x := c.x + 4 }

/-- A benign baseline descriptor: passthrough units, identity converters,
no optional sub-operations, no transform implementations. -/
def P_base : PJ :=
  { left := PJ_IO_UNITS.whatever
    right := PJ_IO_UNITS.whatever
    to_meter := 1
    vto_meter := 1
    ra := 1
    x0 := 0
    y0 := 0
    z0 := 0
    lam0 := 0
    from_greenwich := 0
    over := true
    geoc := false
    is_geocent := false
    skip_inv_prepare := false
    skip_inv_finalize := false
    axisswap := none
    hgridshift := none
    vgridshift := none
    helmert := none
    cart := fun _ c => c
    cart_wgs84 := fun _ c => c
    geocentric_latitude := fun _ r => r
    inv := none
    inv3d := none
    inv4d := none }

/-- All three transform implementations present. -/
def P_all : PJ := { P_base with inv := some tf2, inv3d := some tf3, inv4d := some tf4 }

/-- Only the 3D and 4D implementations present. -/
def P_34 : PJ := { P_base with inv3d := some tf3, inv4d := some tf4 }

/-- Only the 4D implementation present. -/
def P_4 : PJ := { P_base with inv4d := some tf4 }

/-- Only the 3D implementation present. -/
def P_3 : PJ := { P_base with inv3d := some tf3 }

/-- Only the 2D implementation present. -/
def P_2 : PJ := { P_base with inv := some tf2 }

/-- No implementation present at all; prepare skipped. -/
def P_none : PJ := { P_base with skip_inv_prepare := true }

/-- Angular input units, otherwise benign. -/
def P_ang : PJ := { P_base with right := PJ_IO_UNITS.angular }

/-- Angular input units with longitude over-range normalization enabled. -/
def P_ang_norm : PJ := { P_base with right := PJ_IO_UNITS.angular, over := false }

/-- Angular input units, a failing horizontal grid shift, and a vertical
grid shift that would visibly alter the longitude if it were applied. -/
def P_prep_err : PJ :=
  { P_base with right := PJ_IO_UNITS.angular,
                hgridshift := some (fun _ _ => proj_coord_error),
                vgridshift := some (fun _ c => { c with x := 999 }) }

/-- Angular output from projected input with a failing horizontal grid
shift in the finalize stage. -/
def P_fin_err : PJ :=
  { P_base with left := PJ_IO_UNITS.angular, right := PJ_IO_UNITS.projected,
                hgridshift := some (fun _ _ => proj_coord_error) }

/-- Angular output from projected input, no datum sub-operations. -/
def P_fin : PJ := { P_base with left := PJ_IO_UNITS.angular, right := PJ_IO_UNITS.projected }

/-- A descriptor with an (identity) Helmert sub-operation. -/
def P_helm : PJ := { P_base with helmert := some (fun _ c => c) }

/-- Classic-scaled input units with non-trivial scale and offset numbers. -/
def P_classic : PJ :=
  { P_base with right := PJ_IO_UNITS.classic,
                to_meter := 2, vto_meter := 3, ra := 5, x0 := 1, y0 := 1, z0 := 1 }

/-- Projected input units with the same scale and offset numbers. -/
def P_proj : PJ := { P_classic with right := PJ_IO_UNITS.projected }

/-- All transforms present but prepare skipped. -/
def P_skip : PJ :=
  { P_base with skip_inv_prepare := true,
                inv := some tf2, inv3d := some tf3, inv4d := some tf4 }

/-- Angular input units and a 2D implementation. -/
def P_c10 : PJ := { P_base with right := PJ_IO_UNITS.angular, inv := some tf2 }

/-- The coordinate the 2D entry point builds from its argument
(lines 177–178: zero-initialized, then `coo.xy = xy`). -/
def coo2d (xy : ℝ × ℝ) : PJ_COORD := { x := xy.1, y := xy.2, z := 0, t := 0 }

/-- The coordinate the 3D entry point builds from its argument
(lines 207–208: zero-initialized, then `coo.xyz = xyz`). -/
def coo3d (xyz : ℝ × ℝ × ℝ) : PJ_COORD :=
  { x := xyz.1, y := xyz.2.1, z := xyz.2.2, t := 0 }

/-- The origin coordinate. -/
def coo0 : PJ_COORD := { x := 0, y := 0, z := 0, t := 0 }

/-- A generic finite coordinate. -/
def cooA : PJ_COORD := { x := 1, y := 2, z := 3, t := 4 }

/-- A 2-component coordinate: height and time are the sentinel. -/
def cooHzt : PJ_COORD := { x := 1, y := 2, z := HUGE_VAL, t := HUGE_VAL }

/-- Finite first component, sentinel second component. -/
def cooY : PJ_COORD := { x := 0, y := HUGE_VAL, z := 0, t := 0 }

/-- A latitude slightly over the pole (within the ε tolerance). -/
def cooLat : PJ_COORD := { x := 0, y := M_HALFPI + 1e-13, z := 0, t := 0 }

/-- A latitude far over the pole (beyond the ε tolerance). -/
def cooLat4 : PJ_COORD := { x := 0, y := 4, z := 0, t := 0 }

/-- De-scaled inputs for the classic/projected branch. -/
def cooB : PJ_COORD := { x := 5, y := 6, z := 7, t := 8 }

/-! Helper lemmas shared by the claim theorems. -/

theorem adjlon_mem_Ioc (lam : ℝ) : adjlon lam ∈ Set.Ioc (-Real.pi) Real.pi := by
  have hpi : 0 < Real.pi := Real.pi_pos
  have h2 : (0:ℝ) < 2 * Real.pi := by linarith
  set k : ℤ := ⌈(lam - Real.pi) / (2 * Real.pi)⌉ with hk
  have h1 : (lam - Real.pi) / (2 * Real.pi) ≤ (k : ℝ) := Int.le_ceil _
  have h3 : ((k : ℝ) - 1) < (lam - Real.pi) / (2 * Real.pi) := by
    have hce : ((k : ℝ)) < (lam - Real.pi) / (2 * Real.pi) + 1 := by
      exact_mod_cast Int.ceil_lt_add_one ((lam - Real.pi) / (2 * Real.pi))
    linarith
  have h1' : lam - Real.pi ≤ (k : ℝ) * (2 * Real.pi) := (div_le_iff₀ h2).mp h1
  have h3' : ((k : ℝ) - 1) * (2 * Real.pi) < lam - Real.pi := (lt_div_iff₀ h2).mp h3
  simp only [adjlon, Set.mem_Ioc]
  constructor
  · nlinarith
  · nlinarith

theorem clampLat_mem (phi : ℝ) : clampLat phi ∈ Set.Icc (-M_HALFPI) M_HALFPI := by
  have h0 : 0 ≤ M_HALFPI := by
    have := Real.pi_pos
    unfold M_HALFPI
    linarith
  simp only [clampLat, Set.mem_Icc]
  by_cases h1 : phi > M_HALFPI
  · rw [if_pos h1, if_neg (by linarith : ¬ M_HALFPI < -M_HALFPI)]
    exact ⟨by linarith, le_refl _⟩
  · rw [if_neg h1]
    by_cases h2 : phi < -M_HALFPI
    · rw [if_pos h2]
      exact ⟨le_refl _, by linarith⟩
    · rw [if_neg h2]
      exact ⟨by linarith, by linarith⟩

theorem clampLat_of_gt (phi : ℝ) (h : phi > M_HALFPI) : clampLat phi = M_HALFPI := by
  have h0 : 0 ≤ M_HALFPI := by
    have := Real.pi_pos
    unfold M_HALFPI
    linarith
  simp only [clampLat]
  rw [if_pos h, if_neg (by linarith : ¬ M_HALFPI < -M_HALFPI)]

theorem helmertSubst_x (P : PJ) (coo : PJ_COORD) : (helmertSubst P coo).x = coo.x := by
  by_cases hz : coo.z = HUGE_VAL <;> by_cases ht : coo.t = HUGE_VAL <;>
    by_cases hh : P.helmert.isSome = true <;> simp [helmertSubst, hz, ht, hh]

theorem helmertSubst_y (P : PJ) (coo : PJ_COORD) : (helmertSubst P coo).y = coo.y := by
  by_cases hz : coo.z = HUGE_VAL <;> by_cases ht : coo.t = HUGE_VAL <;>
    by_cases hh : P.helmert.isSome = true <;> simp [helmertSubst, hz, ht, hh]

theorem helmertSubst_of_none (P : PJ) (coo : PJ_COORD) (h : P.helmert = none) :
    helmertSubst P coo = coo := by
  simp [helmertSubst, h]

theorem rangeExceeded_iff (coo : PJ_COORD) :
    rangeExceeded coo ↔ |coo.y| - M_HALFPI > PJ_EPS_LAT ∨ |coo.x| > 10 := by
  have habs : (if coo.y < 0 then -coo.y else coo.y) = |coo.y| := by
    rcases lt_or_le coo.y 0 with h | h
    · rw [if_pos h, abs_of_neg h]
    · rw [if_neg (not_lt.mpr h), abs_of_nonneg h]
  have hx : (coo.x > 10 ∨ coo.x < -10) ↔ |coo.x| > 10 := by
    rw [show (|coo.x| > 10) = (10 < |coo.x|) from rfl, lt_abs]
    constructor
    · rintro (h | h)
      · exact Or.inl h
      · exact Or.inr (by linarith)
    · rintro (h | h)
      · exact Or.inl h
      · exact Or.inr (by linarith)
  unfold rangeExceeded
  rw [habs, hx]

theorem rangeExceeded_helmertSubst (P : PJ) (coo : PJ_COORD) :
    rangeExceeded (helmertSubst P coo) ↔ rangeExceeded coo := by
  unfold rangeExceeded
  rw [helmertSubst_x, helmertSubst_y]

theorem pj_inv_prepare_angular_ok (P : PJ) (coo : PJ_COORD)
    (hu : P.right = PJ_IO_UNITS.angular) (ha : P.axisswap = none)
    (hx : coo.x ≠ HUGE_VAL) (hr : ¬ rangeExceeded coo) :
    pj_inv_prepare P coo =
      (prepShiftStage P (meridianAdjust P (geocInvStep P (clampStep (helmertSubst P coo)))),
        none) := by
  unfold pj_inv_prepare
  rw [if_neg hx]
  unfold applyAxisswap
  rw [ha]
  unfold pj_inv_prepare_units
  rw [if_pos hu, if_neg ((not_congr (rangeExceeded_helmertSubst P coo)).mpr hr)]

theorem pj_inv_prepare_angular_err (P : PJ) (coo : PJ_COORD)
    (hu : P.right = PJ_IO_UNITS.angular) (ha : P.axisswap = none)
    (hx : coo.x ≠ HUGE_VAL) (hr : rangeExceeded coo) :
    pj_inv_prepare P coo = (proj_coord_error, some PJErr.latOrLonExceedLimit) := by
  unfold pj_inv_prepare
  rw [if_neg hx]
  unfold applyAxisswap
  rw [ha]
  unfold pj_inv_prepare_units
  rw [if_pos hu, if_pos ((rangeExceeded_helmertSubst P coo).mpr hr)]

theorem geocInvStep_x (P : PJ) (coo : PJ_COORD) : (geocInvStep P coo).x = coo.x := by
  unfold geocInvStep
  split <;> rfl

theorem clampStep_x (coo : PJ_COORD) : (clampStep coo).x = coo.x := rfl

theorem not_rangeExceeded_of (coo : PJ_COORD)
    (hy : |coo.y| ≤ M_HALFPI + PJ_EPS_LAT) (hx : |coo.x| ≤ 10) :
    ¬ rangeExceeded coo := by
  rw [rangeExceeded_iff]
  push_neg
  exact ⟨by linarith, by linarith⟩

theorem not_rangeExceeded_coo0 : ¬ rangeExceeded coo0 := by
  refine not_rangeExceeded_of coo0 ?_ ?_
  · rw [show coo0.y = (0:ℝ) from rfl, abs_zero]
    have h0 : 0 ≤ M_HALFPI := by
      unfold M_HALFPI
      linarith [Real.pi_pos]
    unfold PJ_EPS_LAT
    linarith
  · rw [show coo0.x = (0:ℝ) from rfl, abs_zero]
    norm_num

theorem pj_inv_prepare_units_snd (P : PJ) (coo : PJ_COORD) :
    (pj_inv_prepare_units P coo).2 = none ∨
      (pj_inv_prepare_units P coo).2 = some PJErr.latOrLonExceedLimit := by
  unfold pj_inv_prepare_units
  by_cases hu : P.right = PJ_IO_UNITS.angular
  · rw [if_pos hu]
    by_cases hr : rangeExceeded coo
    · rw [if_pos hr]
      right
      rfl
    · rw [if_neg hr]
      left
      rfl
  · rw [if_neg hu]
    rcases hR : P.right <;> simp [hR]

theorem pj_inv_of_prepare_err (P : PJ) (xy : ℝ × ℝ) (e : PJErr)
    (hs : P.skip_inv_prepare = false)
    (h : pj_inv_prepare P { x := xy.1, y := xy.2, z := 0, t := 0 } =
      (proj_coord_error, some e)) :
    pj_inv xy P = ((HUGE_VAL, HUGE_VAL), some e) := by
  simp only [pj_inv, hs, Bool.false_eq_true, if_false, h]
  rw [if_pos (show proj_coord_error.x = HUGE_VAL from rfl)]

theorem pj_inv3d_of_prepare_err (P : PJ) (xyz : ℝ × ℝ × ℝ) (e : PJErr)
    (hs : P.skip_inv_prepare = false)
    (h : pj_inv_prepare P { x := xyz.1, y := xyz.2.1, z := xyz.2.2, t := 0 } =
      (proj_coord_error, some e)) :
    pj_inv3d xyz P = ((HUGE_VAL, HUGE_VAL, HUGE_VAL), some e) := by
  simp only [pj_inv3d, hs, Bool.false_eq_true, if_false, h]
  rw [if_pos (show proj_coord_error.x = HUGE_VAL from rfl)]

theorem pj_inv4d_of_prepare_err (P : PJ) (coo : PJ_COORD) (e : PJErr)
    (hs : P.skip_inv_prepare = false)
    (h : pj_inv_prepare P coo = (proj_coord_error, some e)) :
    pj_inv4d coo P = (proj_coord_error, some e) := by
  simp only [pj_inv4d, hs, Bool.false_eq_true, if_false, h]
  rw [if_pos (show proj_coord_error.x = HUGE_VAL from rfl)]

theorem pj_inv_prepare_whatever (P : PJ) (coo : PJ_COORD)
    (hu : P.right = PJ_IO_UNITS.whatever) (ha : P.axisswap = none)
    (hh : P.helmert = none) (hx : coo.x ≠ HUGE_VAL) :
    pj_inv_prepare P coo = (coo, none) := by
  unfold pj_inv_prepare
  rw [if_neg hx]
  unfold applyAxisswap
  rw [ha, helmertSubst_of_none P coo hh]
  unfold pj_inv_prepare_units
  rw [if_neg (by simp [hu]), hu]

theorem pj_inv_finalize_nonangular (P : PJ) (coo : PJ_COORD)
    (hl : P.left ≠ PJ_IO_UNITS.angular) (hx : coo.x ≠ HUGE_VAL) :
    pj_inv_finalize P coo = (coo, none) := by
  unfold pj_inv_finalize
  rw [if_neg hx, if_neg hl]

/-! The claim theorems. -/

/-- Claim C7: exactly when the descriptor has a Helmert sub-operation,
Prepare substitutes zero for a sentinel third and/or fourth component, and
it does so before any sub-operation (axis swap, datum chain) runs: the rest
of Prepare receives the substituted coordinate.  The substitution leaves the
horizontal components untouched. -/
theorem C7_helmert_substitution (P : PJ) (coo : PJ_COORD) :
    (P.helmert.isSome = true →
      helmertSubst P coo =
        { coo with z := if coo.z = HUGE_VAL then 0 else coo.z,
                   t := if coo.t = HUGE_VAL then 0 else coo.t }) ∧
    (P.helmert = none → helmertSubst P coo = coo) ∧
    (coo.x ≠ HUGE_VAL →
      pj_inv_prepare P coo =
        pj_inv_prepare_units P (applyAxisswap P (helmertSubst P coo))) ∧
    (helmertSubst P coo).x = coo.x ∧ (helmertSubst P coo).y = coo.y := by
  refine ⟨?_, ?_, ?_, helmertSubst_x P coo, helmertSubst_y P coo⟩
  · intro hh
    by_cases hz : coo.z = HUGE_VAL <;> by_cases ht : coo.t = HUGE_VAL <;>
      simp [helmertSubst, hz, ht, hh]
  · intro hnone
    exact helmertSubst_of_none P coo hnone
  · intro hx
    unfold pj_inv_prepare
    rw [if_neg hx]

/-- Witness for C7: with an (identity) Helmert sub-operation, a coordinate
whose height and time are the sentinel has both substituted by zero; with no
Helmert sub-operation it is left alone; Prepare factors through the
substitution and the axis swap. -/
theorem C7_helmert_substitution_witness :
    helmertSubst P_helm cooHzt = { x := 1, y := 2, z := 0, t := 0 } ∧
    helmertSubst P_base cooHzt = cooHzt ∧
    pj_inv_prepare P_helm cooHzt =
      pj_inv_prepare_units P_helm (applyAxisswap P_helm (helmertSubst P_helm cooHzt)) := by
  refine ⟨?_, ?_, ?_⟩
  · have h := (C7_helmert_substitution P_helm cooHzt).1 rfl
    rw [h]
    simp [cooHzt]
  · exact (C7_helmert_substitution P_base cooHzt).2.1 rfl
  · exact (C7_helmert_substitution P_helm cooHzt).2.2.1 (by norm_num [cooHzt, HUGE_VAL])

/-- Claim C8: with classic-scaled input units Prepare computes
`x ← to_meter·x − x0`, `y ← to_meter·y − y0`, `z ← vto_meter·z − z0` and then
multiplies (not divides) the horizontal components by the inverse semimajor
scale `ra`; with projected input units the same de-scale/de-offset is applied
without the `ra` multiplication. -/
theorem C8_classic_descale (P : PJ) (coo : PJ_COORD)
    (ha : P.axisswap = none) (hh : P.helmert = none) (hx : coo.x ≠ HUGE_VAL) :
    (P.right = PJ_IO_UNITS.classic →
      pj_inv_prepare P coo =
        ({ x := (P.to_meter * coo.x - P.x0) * P.ra,
           y := (P.to_meter * coo.y - P.y0) * P.ra,
           z := P.vto_meter * coo.z - P.z0, t := coo.t }, none)) ∧
    (P.right = PJ_IO_UNITS.projected →
      pj_inv_prepare P coo =
        ({ x := P.to_meter * coo.x - P.x0,
           y := P.to_meter * coo.y - P.y0,
           z := P.vto_meter * coo.z - P.z0, t := coo.t }, none)) := by
  constructor <;> intro hu <;>
    simp [pj_inv_prepare, hx, applyAxisswap, ha, helmertSubst_of_none P coo hh,
      pj_inv_prepare_units, hu]

/-- Witness for C8: concrete de-scaling with `to_meter = 2`, `vto_meter = 3`,
`ra = 5`, offsets 1, on the coordinate (5, 6, 7, 8). -/
theorem C8_classic_descale_witness :
    pj_inv_prepare P_classic cooB = ({ x := 45, y := 55, z := 20, t := 8 }, none) ∧
    pj_inv_prepare P_proj cooB = ({ x := 9, y := 11, z := 20, t := 8 }, none) := by
  have hx : cooB.x ≠ HUGE_VAL := by norm_num [cooB, HUGE_VAL]
  constructor
  · rw [(C8_classic_descale P_classic cooB rfl rfl hx).1 rfl]
    norm_num [P_classic, P_base, cooB]
  · rw [(C8_classic_descale P_proj cooB rfl rfl hx).2 rfl]
    norm_num [P_proj, P_classic, P_base, cooB]

/-- Claim C9: a sentinel first component short-circuits every entry point to
the sentinel-marked error coordinate — the result is fixed independently of
the descriptor's transform implementations, so the core transform is never
consulted — and this holds also when `skip_inv_prepare` is set, because each
entry point re-checks the first component after the optional Prepare and
before dispatch. -/
theorem C9_sentinel_input (P : PJ) (xy : ℝ × ℝ) (xyz : ℝ × ℝ × ℝ) (coo : PJ_COORD) :
    (xy.1 = HUGE_VAL →
      pj_inv xy P = ((HUGE_VAL, HUGE_VAL),
        if P.skip_inv_prepare then none else some PJErr.invalidXorY)) ∧
    (xyz.1 = HUGE_VAL →
      pj_inv3d xyz P = ((HUGE_VAL, HUGE_VAL, HUGE_VAL),
        if P.skip_inv_prepare then none else some PJErr.invalidXorY)) ∧
    (coo.x = HUGE_VAL →
      pj_inv4d coo P = (proj_coord_error,
        if P.skip_inv_prepare then none else some PJErr.invalidXorY)) := by
  refine ⟨?_, ?_, ?_⟩ <;> intro h <;>
    by_cases hs : P.skip_inv_prepare <;>
      simp [pj_inv, pj_inv3d, pj_inv4d, hs, h, pj_inv_prepare, proj_coord_error]

/-- Witness for C9: the three entry points at a sentinel first component,
with prepare skipped (all transforms present) and with prepare active. -/
theorem C9_sentinel_input_witness :
    pj_inv (HUGE_VAL, 0) P_skip = ((HUGE_VAL, HUGE_VAL), none) ∧
    pj_inv3d (HUGE_VAL, 0, 0) P_skip = ((HUGE_VAL, HUGE_VAL, HUGE_VAL), none) ∧
    pj_inv4d { x := HUGE_VAL, y := 0, z := 0, t := 0 } P_skip = (proj_coord_error, none) ∧
    pj_inv (HUGE_VAL, 0) P_all = ((HUGE_VAL, HUGE_VAL), some PJErr.invalidXorY) := by
  have hskip : P_skip.skip_inv_prepare = true := rfl
  have hall : P_all.skip_inv_prepare = false := rfl
  refine ⟨?_, ?_, ?_, ?_⟩
  · have h := (C9_sentinel_input P_skip (HUGE_VAL, 0) (HUGE_VAL, 0, 0)
      { x := HUGE_VAL, y := 0, z := 0, t := 0 }).1 rfl
    rw [h, hskip]
    rfl
  · have h := (C9_sentinel_input P_skip (HUGE_VAL, 0) (HUGE_VAL, 0, 0)
      { x := HUGE_VAL, y := 0, z := 0, t := 0 }).2.1 rfl
    rw [h, hskip]
    rfl
  · have h := (C9_sentinel_input P_skip (HUGE_VAL, 0) (HUGE_VAL, 0, 0)
      { x := HUGE_VAL, y := 0, z := 0, t := 0 }).2.2 rfl
    rw [h, hskip]
    rfl
  · have h := (C9_sentinel_input P_all (HUGE_VAL, 0) (HUGE_VAL, 0, 0)
      { x := HUGE_VAL, y := 0, z := 0, t := 0 }).1 rfl
    rw [h, hall]
    rfl

/-- Claim C1: each entry point dispatches to its own-dimensionality
implementation when present and otherwise falls back in the fixed order
(2D: `inv`, `inv3d`, `inv4d`; 3D: `inv3d`, `inv4d`, `inv`; 4D: `inv4d`,
`inv3d`, `inv`), converting the coordinate's view as needed; when no
implementation exists the call fails with `EINVAL` (no transform available)
and returns a sentinel-marked coordinate. -/
theorem C1_dispatch_order (P : PJ) (coo : PJ_COORD) :
    (∀ f, P.inv = some f →
      dispatch2d P coo = (setlp coo (f (coo.x, coo.y)), none)) ∧
    (P.inv = none → ∀ f, P.inv3d = some f →
      dispatch2d P coo = (setlpz coo (f (coo.x, coo.y, coo.z)), none)) ∧
    (P.inv = none → P.inv3d = none → ∀ f, P.inv4d = some f →
      dispatch2d P coo = (f coo, none)) ∧
    (P.inv = none → P.inv3d = none → P.inv4d = none →
      dispatch2d P coo = (proj_coord_error, some PJErr.einval)) ∧
    (∀ f, P.inv3d = some f →
      dispatch3d P coo = (setlpz coo (f (coo.x, coo.y, coo.z)), none)) ∧
    (P.inv3d = none → ∀ f, P.inv4d = some f →
      dispatch3d P coo = (f coo, none)) ∧
    (P.inv3d = none → P.inv4d = none → ∀ f, P.inv = some f →
      dispatch3d P coo = (setlp coo (f (coo.x, coo.y)), none)) ∧
    (P.inv3d = none → P.inv4d = none → P.inv = none →
      dispatch3d P coo = (proj_coord_error, some PJErr.einval)) ∧
    (∀ f, P.inv4d = some f → dispatch4d P coo = (f coo, none)) ∧
    (P.inv4d = none → ∀ f, P.inv3d = some f →
      dispatch4d P coo = (setlpz coo (f (coo.x, coo.y, coo.z)), none)) ∧
    (P.inv4d = none → P.inv3d = none → ∀ f, P.inv = some f →
      dispatch4d P coo = (setlp coo (f (coo.x, coo.y)), none)) ∧
    (P.inv4d = none → P.inv3d = none → P.inv = none →
      dispatch4d P coo = (proj_coord_error, some PJErr.einval)) ∧
    (P.inv = none → P.inv3d = none → P.inv4d = none → P.skip_inv_prepare = true →
      coo.x ≠ HUGE_VAL →
      pj_inv (coo.x, coo.y) P = ((HUGE_VAL, HUGE_VAL), some PJErr.einval)) ∧
    (P.inv = none → P.inv3d = none → P.inv4d = none → P.skip_inv_prepare = true →
      coo.x ≠ HUGE_VAL →
      pj_inv3d (coo.x, coo.y, coo.z) P =
        ((HUGE_VAL, HUGE_VAL, HUGE_VAL), some PJErr.einval)) ∧
    (P.inv = none → P.inv3d = none → P.inv4d = none → P.skip_inv_prepare = true →
      coo.x ≠ HUGE_VAL →
      pj_inv4d coo P = (proj_coord_error, some PJErr.einval)) := by
  refine ⟨?_, ?_, ?_, ?_, ?_, ?_, ?_, ?_, ?_, ?_, ?_, ?_, ?_, ?_, ?_⟩
  · intro f hf
    simp [dispatch2d, hf]
  · intro h1 f hf
    simp [dispatch2d, h1, hf]
  · intro h1 h2 f hf
    simp [dispatch2d, h1, h2, hf]
  · intro h1 h2 h3
    simp [dispatch2d, h1, h2, h3]
  · intro f hf
    simp [dispatch3d, hf]
  · intro h1 f hf
    simp [dispatch3d, h1, hf]
  · intro h1 h2 f hf
    simp [dispatch3d, h1, h2, hf]
  · intro h1 h2 h3
    simp [dispatch3d, h1, h2, h3]
  · intro f hf
    simp [dispatch4d, hf]
  · intro h1 f hf
    simp [dispatch4d, h1, hf]
  · intro h1 h2 f hf
    simp [dispatch4d, h1, h2, hf]
  · intro h1 h2 h3
    simp [dispatch4d, h1, h2, h3]
  · intro h1 h2 h3 hs hx
    simp [pj_inv, hs, dispatch2d, h1, h2, h3, hx, proj_coord_error]
  · intro h1 h2 h3 hs hx
    simp [pj_inv3d, hs, dispatch3d, h1, h2, h3, hx, proj_coord_error]
  · intro h1 h2 h3 hs hx
    simp [pj_inv4d, hs, dispatch4d, h1, h2, h3, hx, proj_coord_error]

/-- Witness for C1: every dispatch selection and every fallback at the
concrete coordinate (1, 2, 3, 4), with sample transforms that shift the
first slot by their own dimensionality (2, 3 or 4), plus the no-transform
failure of all three entry points. -/
theorem C1_dispatch_order_witness :
    dispatch2d P_all cooA = ({ x := 3, y := 2, z := 3, t := 4 }, none) ∧
    dispatch2d P_34 cooA = ({ x := 4, y := 2, z := 3, t := 4 }, none) ∧
    dispatch2d P_4 cooA = ({ x := 5, y := 2, z := 3, t := 4 }, none) ∧
    dispatch2d P_none cooA = (proj_coord_error, some PJErr.einval) ∧
    dispatch3d P_all cooA = ({ x := 4, y := 2, z := 3, t := 4 }, none) ∧
    dispatch3d P_4 cooA = ({ x := 5, y := 2, z := 3, t := 4 }, none) ∧
    dispatch3d P_2 cooA = ({ x := 3, y := 2, z := 3, t := 4 }, none) ∧
    dispatch3d P_none cooA = (proj_coord_error, some PJErr.einval) ∧
    dispatch4d P_all cooA = ({ x := 5, y := 2, z := 3, t := 4 }, none) ∧
    dispatch4d P_3 cooA = ({ x := 4, y := 2, z := 3, t := 4 }, none) ∧
    dispatch4d P_2 cooA = ({ x := 3, y := 2, z := 3, t := 4 }, none) ∧
    dispatch4d P_none cooA = (proj_coord_error, some PJErr.einval) ∧
    pj_inv (cooA.x, cooA.y) P_none = ((HUGE_VAL, HUGE_VAL), some PJErr.einval) ∧
    pj_inv3d (cooA.x, cooA.y, cooA.z) P_none =
      ((HUGE_VAL, HUGE_VAL, HUGE_VAL), some PJErr.einval) ∧
    pj_inv4d cooA P_none = (proj_coord_error, some PJErr.einval) := by
  have hx : cooA.x ≠ HUGE_VAL := by norm_num [cooA, HUGE_VAL]
  refine ⟨?_, ?_, ?_, ?_, ?_, ?_, ?_, ?_, ?_, ?_, ?_, ?_, ?_, ?_, ?_⟩
  · rw [(C1_dispatch_order P_all cooA).1 tf2 rfl]
    norm_num [setlp, tf2, cooA]
  · rw [(C1_dispatch_order P_34 cooA).2.1 rfl tf3 rfl]
    norm_num [setlpz, tf3, cooA]
  · rw [(C1_dispatch_order P_4 cooA).2.2.1 rfl rfl tf4 rfl]
    norm_num [tf4, cooA]
  · exact (C1_dispatch_order P_none cooA).2.2.2.1 rfl rfl rfl
  · rw [(C1_dispatch_order P_all cooA).2.2.2.2.1 tf3 rfl]
    norm_num [setlpz, tf3, cooA]
  · rw [(C1_dispatch_order P_4 cooA).2.2.2.2.2.1 rfl tf4 rfl]
    norm_num [tf4, cooA]
  · rw [(C1_dispatch_order P_2 cooA).2.2.2.2.2.2.1 rfl rfl tf2 rfl]
    norm_num [setlp, tf2, cooA]
  · exact (C1_dispatch_order P_none cooA).2.2.2.2.2.2.2.1 rfl rfl rfl
  · rw [(C1_dispatch_order P_all cooA).2.2.2.2.2.2.2.2.1 tf4 rfl]
    norm_num [tf4, cooA]
  · rw [(C1_dispatch_order P_3 cooA).2.2.2.2.2.2.2.2.2.1 rfl tf3 rfl]
    norm_num [setlpz, tf3, cooA]
  · rw [(C1_dispatch_order P_2 cooA).2.2.2.2.2.2.2.2.2.2.1 rfl rfl tf2 rfl]
    norm_num [setlp, tf2, cooA]
  · exact (C1_dispatch_order P_none cooA).2.2.2.2.2.2.2.2.2.2.2.1 rfl rfl rfl
  · exact (C1_dispatch_order P_none cooA).2.2.2.2.2.2.2.2.2.2.2.2.1 rfl rfl rfl rfl hx
  · exact (C1_dispatch_order P_none cooA).2.2.2.2.2.2.2.2.2.2.2.2.2.1 rfl rfl rfl rfl hx
  · exact (C1_dispatch_order P_none cooA).2.2.2.2.2.2.2.2.2.2.2.2.2.2 rfl rfl rfl rfl hx

/-- Counterexample to claim C2 as stated: at latitude 0, longitude 0 the
claim's condition `| |lat| − 90°| > ε` holds (the deviation from the pole is
π/2), yet Prepare neither sets `LatOrLonExceedsLimit` nor returns the
sentinel-marked coordinate. -/
theorem C2_counterexample :
    |abs (0:ℝ) - M_HALFPI| > PJ_EPS_LAT ∧
    (pj_inv_prepare P_ang coo0).2 = none ∧
    (pj_inv_prepare P_ang coo0).1 ≠ proj_coord_error := by
  have hpi3 := Real.pi_gt_three
  have hup := pj_inv_prepare_angular_ok P_ang coo0 rfl rfl
    (by norm_num [coo0, HUGE_VAL]) not_rangeExceeded_coo0
  refine ⟨?_, ?_, ?_⟩
  · rw [abs_zero, zero_sub, abs_neg]
    unfold M_HALFPI PJ_EPS_LAT
    rw [abs_of_nonneg (by linarith)]
    linarith
  · rw [hup]
  · rw [hup]
    intro hcon
    have hx := congrArg PJ_COORD.x hcon
    rw [prepShiftStage, datumShiftFwd] at hx
    simp only [show P_ang.hgridshift = none from rfl, show P_ang.helmert = none from rfl,
      show P_ang.vgridshift = none from rfl] at hx
    rw [ite_self] at hx
    rw [meridianAdjust] at hx
    simp only [show P_ang.over = true from rfl] at hx
    norm_num [geocInvStep_x, clampStep_x, helmertSubst_x,
      show P_ang.from_greenwich = (0:ℝ) from rfl, show P_ang.lam0 = (0:ℝ) from rfl,
      coo0, proj_coord_error, HUGE_VAL] at hx

/-- Claim C2 (amended): for angular input units (no axis swap, first
component not the sentinel), Prepare fails with `LatOrLonExceedsLimit` and
returns the sentinel-marked coordinate exactly when the latitude's absolute
value exceeds 90° by more than ε — the signed excess `|lat| − 90° > ε`, not
the claim's `| |lat| − 90°| > ε` — or `|lon| > 10` radians. -/
theorem C2_range_check_amended (P : PJ) (coo : PJ_COORD)
    (hu : P.right = PJ_IO_UNITS.angular) (ha : P.axisswap = none)
    (hx : coo.x ≠ HUGE_VAL) :
    pj_inv_prepare P coo = (proj_coord_error, some PJErr.latOrLonExceedLimit) ↔
      (|coo.y| - M_HALFPI > PJ_EPS_LAT ∨ |coo.x| > 10) := by
  constructor
  · intro h
    by_contra hneg
    have hr : ¬ rangeExceeded coo := by
      rw [rangeExceeded_iff]
      exact hneg
    rw [pj_inv_prepare_angular_ok P coo hu ha hx hr] at h
    have hsnd := congrArg Prod.snd h
    simp at hsnd
  · intro h
    exact pj_inv_prepare_angular_err P coo hu ha hx ((rangeExceeded_iff coo).mpr h)

/-- Witness for the amended C2: latitude 4 rad is beyond 90° + ε, so Prepare
fails with the range-limit error and the sentinel coordinate. -/
theorem C2_range_check_amended_witness :
    pj_inv_prepare P_ang cooLat4 = (proj_coord_error, some PJErr.latOrLonExceedLimit) := by
  refine (C2_range_check_amended P_ang cooLat4 rfl rfl
    (by norm_num [cooLat4, HUGE_VAL])).mpr ?_
  left
  have hpi := Real.pi_lt_d2
  rw [show cooLat4.y = (4:ℝ) from rfl, abs_of_nonneg (by norm_num : (0:ℝ) ≤ 4)]
  unfold M_HALFPI PJ_EPS_LAT
  linarith

/-- Claim C3: an angular input with `|lat| ≤ 90° + ε` and `|lon| ≤ 10` rad
does not trigger the range-limit error; the latitude is clamped into exactly
[−90°, 90°] and the rest of Prepare runs on the clamped coordinate; a
latitude slightly over the pole is clamped to 90°, not rejected. -/
theorem C3_clamp_over_pole (P : PJ) (coo : PJ_COORD)
    (hu : P.right = PJ_IO_UNITS.angular) (ha : P.axisswap = none)
    (hy : |coo.y| ≤ M_HALFPI + PJ_EPS_LAT) (hx : |coo.x| ≤ 10) :
    (pj_inv_prepare P coo).2 ≠ some PJErr.latOrLonExceedLimit ∧
    pj_inv_prepare P coo =
      (prepShiftStage P (meridianAdjust P (geocInvStep P
        { helmertSubst P coo with y := clampLat coo.y })), none) ∧
    clampLat coo.y ∈ Set.Icc (-M_HALFPI) M_HALFPI ∧
    (coo.y > M_HALFPI → clampLat coo.y = M_HALFPI) := by
  have hxH : coo.x ≠ HUGE_VAL := by
    intro hcon
    rw [hcon] at hx
    have hle : HUGE_VAL ≤ |HUGE_VAL| := le_abs_self _
    have : (HUGE_VAL:ℝ) ≤ 10 := le_trans hle hx
    norm_num [HUGE_VAL] at this
  have hr : ¬ rangeExceeded coo := not_rangeExceeded_of coo hy hx
  have hok := pj_inv_prepare_angular_ok P coo hu ha hxH hr
  have hstep : clampStep (helmertSubst P coo) =
      { helmertSubst P coo with y := clampLat coo.y } := by
    unfold clampStep
    rw [helmertSubst_y]
  refine ⟨?_, ?_, clampLat_mem coo.y, fun h => clampLat_of_gt coo.y h⟩
  · rw [hok]
    simp
  · rw [hok, hstep]

/-- Witness for C3: a latitude ε/10 over the pole passes the range check and
is clamped to exactly 90°. -/
theorem C3_clamp_over_pole_witness :
    (pj_inv_prepare P_ang cooLat).2 ≠ some PJErr.latOrLonExceedLimit ∧
    clampLat cooLat.y = M_HALFPI ∧
    clampLat cooLat.y ∈ Set.Icc (-M_HALFPI) M_HALFPI := by
  have hpi := Real.pi_pos
  have hy : |cooLat.y| ≤ M_HALFPI + PJ_EPS_LAT := by
    rw [show cooLat.y = M_HALFPI + 1e-13 from rfl]
    unfold M_HALFPI PJ_EPS_LAT
    rw [abs_of_nonneg (by linarith)]
    linarith
  have hx : |cooLat.x| ≤ 10 := by
    rw [show cooLat.x = (0:ℝ) from rfl, abs_zero]
    norm_num
  have h := C3_clamp_over_pole P_ang cooLat rfl rfl hy hx
  refine ⟨h.1, h.2.2.2 ?_, h.2.2.1⟩
  rw [show cooLat.y = M_HALFPI + 1e-13 from rfl]
  norm_num

/-- Claim C4: for an angular input with over-range normalization enabled
(`over = false`), Prepare computes the longitude as
`(longitude + from_greenwich) − lam0` followed by `adjlon` normalization,
and the resulting longitude lies in (−π, π].  (Stated for descriptors whose
datum sub-operations are absent, so the prepared longitude is exactly the
normalized value.) -/
theorem C4_longitude_normalization (P : PJ) (coo : PJ_COORD)
    (hu : P.right = PJ_IO_UNITS.angular) (hov : P.over = false)
    (ha : P.axisswap = none) (hhg : P.hgridshift = none) (hhe : P.helmert = none)
    (hvg : P.vgridshift = none) (hx : coo.x ≠ HUGE_VAL) (hr : ¬ rangeExceeded coo) :
    (pj_inv_prepare P coo).1.x = adjlon ((coo.x + P.from_greenwich) - P.lam0) ∧
    (pj_inv_prepare P coo).1.x ∈ Set.Ioc (-Real.pi) Real.pi := by
  have hok := pj_inv_prepare_angular_ok P coo hu ha hx hr
  have hxeq : (pj_inv_prepare P coo).1.x =
      adjlon ((coo.x + P.from_greenwich) - P.lam0) := by
    rw [hok]
    show (prepShiftStage P (meridianAdjust P (geocInvStep P
      (clampStep (helmertSubst P coo))))).x = _
    simp only [prepShiftStage, datumShiftFwd, hhg, hhe, hvg, ite_self, meridianAdjust,
      hov, eq_self_iff_true, if_true, geocInvStep_x, clampStep_x, helmertSubst_x]
  refine ⟨hxeq, ?_⟩
  rw [hxeq]
  exact adjlon_mem_Ioc _

/-- Witness for C4: the origin under a normalizing angular descriptor — the
prepared longitude is the adjlon-normalized meridian-adjusted input and lies
in (−π, π]. -/
theorem C4_longitude_normalization_witness :
    (pj_inv_prepare P_ang_norm coo0).1.x =
      adjlon ((coo0.x + P_ang_norm.from_greenwich) - P_ang_norm.lam0) ∧
    (pj_inv_prepare P_ang_norm coo0).1.x ∈ Set.Ioc (-Real.pi) Real.pi :=
  C4_longitude_normalization P_ang_norm coo0 rfl rfl rfl rfl rfl rfl
    (by norm_num [coo0, HUGE_VAL]) not_rangeExceeded_coo0

/-- Claim C5: when the horizontal datum correction produces a sentinel
longitude, the stage returns that sentinel-marked coordinate as-is: Prepare
does not apply the vertical grid shift after it, and Finalize does not apply
the geocentric-latitude conversion after it. -/
theorem C5_sentinel_propagation :
    (∀ (P : PJ) (coo : PJ_COORD), P.right = PJ_IO_UNITS.angular →
      P.axisswap = none → coo.x ≠ HUGE_VAL → ¬ rangeExceeded coo →
      (datumShiftFwd P (meridianAdjust P (geocInvStep P
          (clampStep (helmertSubst P coo))))).x = HUGE_VAL →
      (pj_inv_prepare P coo).1 =
        datumShiftFwd P (meridianAdjust P (geocInvStep P
          (clampStep (helmertSubst P coo))))) ∧
    (∀ (P : PJ) (coo : PJ_COORD), P.left = PJ_IO_UNITS.angular →
      P.right ≠ PJ_IO_UNITS.angular → coo.x ≠ HUGE_VAL →
      (vgridStep P (meridianReAdd P coo)).x ≠ HUGE_VAL →
      (datumShiftFwd P (vgridStep P (meridianReAdd P coo))).x = HUGE_VAL →
      (pj_inv_finalize P coo).1 =
        datumShiftFwd P (vgridStep P (meridianReAdd P coo))) := by
  constructor
  · intro P coo hu ha hx hr hd
    rw [pj_inv_prepare_angular_ok P coo hu ha hx hr]
    show prepShiftStage P _ = _
    unfold prepShiftStage
    rw [if_pos hd]
  · intro P coo hl hne hx hv hd
    unfold pj_inv_finalize
    rw [if_neg hx, if_pos hl, if_pos hne]
    show finTail P _ = _
    unfold finTail
    rw [if_neg hv, if_pos hd]

/-- Witness for C5: a failing horizontal grid shift (returning the error
coordinate) in Prepare — a configured vertical shift that would set the
longitude to 999 is not applied — and in Finalize. -/
theorem C5_sentinel_propagation_witness :
    (pj_inv_prepare P_prep_err coo0).1 = proj_coord_error ∧
    (pj_inv_finalize P_fin_err cooA).1 = proj_coord_error := by
  constructor
  · have hd : (datumShiftFwd P_prep_err (meridianAdjust P_prep_err (geocInvStep P_prep_err
        (clampStep (helmertSubst P_prep_err coo0))))).x = HUGE_VAL := rfl
    rw [C5_sentinel_propagation.1 P_prep_err coo0 rfl rfl
      (by norm_num [coo0, HUGE_VAL]) not_rangeExceeded_coo0 hd]
    rfl
  · have hv : (vgridStep P_fin_err (meridianReAdd P_fin_err cooA)).x ≠ HUGE_VAL := by
      show ((1:ℝ) + 0 + 0) ≠ HUGE_VAL
      norm_num [HUGE_VAL]
    have hd : (datumShiftFwd P_fin_err (vgridStep P_fin_err
        (meridianReAdd P_fin_err cooA))).x = HUGE_VAL := rfl
    rw [C5_sentinel_propagation.2 P_fin_err cooA rfl
      (by simp [P_fin_err, P_base]) (by norm_num [cooA, HUGE_VAL]) hv hd]
    rfl

/-- Claim C6: with angular output units and non-angular input units,
Finalize performs, in order: add `from_greenwich + lam0` to the longitude;
normalize it unless over-range is allowed; apply the vertical grid shift in
its inverse sense; return on a sentinel longitude; apply the horizontal
datum correction (grid shift forward, else local-cartesian forward, Helmert
forward, WGS84-cartesian inverse); return on a sentinel longitude; finally
convert the latitude back to geocentric when in use. -/
theorem C6_finalize_order (P : PJ) (coo : PJ_COORD)
    (hl : P.left = PJ_IO_UNITS.angular) (hne : P.right ≠ PJ_IO_UNITS.angular)
    (hx : coo.x ≠ HUGE_VAL) :
    pj_inv_finalize P coo =
      ((let c1 : PJ_COORD := { coo with x := coo.x + P.from_greenwich + P.lam0 };
        let c2 : PJ_COORD := if P.over = false then { c1 with x := adjlon c1.x } else c1;
        let c3 : PJ_COORD := match P.vgridshift with
          | some f => f PJ_DIRECTION.inv c2
          | none => c2;
        if c3.x = HUGE_VAL then c3
        else
          let c4 : PJ_COORD := match P.hgridshift with
            | some f => f PJ_DIRECTION.fwd c3
            | none => match P.helmert with
              | some h =>
                  P.cart_wgs84 PJ_DIRECTION.inv
                    (h PJ_DIRECTION.fwd (P.cart PJ_DIRECTION.fwd c3))
              | none => c3;
          if c4.x = HUGE_VAL then c4
          else if P.geoc then
            { c4 with y := P.geocentric_latitude PJ_DIRECTION.fwd c4.y }
          else c4), none) := by
  unfold pj_inv_finalize
  rw [if_neg hx, if_pos hl, if_pos hne]
  unfold finTail vgridStep meridianReAdd datumShiftFwd geocFwdStep proj_trans
  rfl

/-- Witness for C6: angular-from-projected finalize on (1, 2, 3, 4) with no
sub-operations configured reproduces the coordinate. -/
theorem C6_finalize_order_witness : pj_inv_finalize P_fin cooA = (cooA, none) := by
  rw [C6_finalize_order P_fin cooA rfl (by simp [P_fin, P_base])
    (by norm_num [cooA, HUGE_VAL])]
  norm_num [P_fin, P_base, cooA, HUGE_VAL]

/-- Counterexample to claim C10 as stated: with angular input units, a
coordinate with finite first component 0 and sentinel second component does
not proceed through dispatch as if valid — the (available, identity-like) 2D
transform is bypassed and the call fails with the range-limit error, because
the sentinel latitude trips the latitude range check. -/
theorem C10_counterexample :
    (0:ℝ) ≠ HUGE_VAL ∧ P_c10.inv = some tf2 ∧
    pj_inv (0, HUGE_VAL) P_c10 =
      ((HUGE_VAL, HUGE_VAL), some PJErr.latOrLonExceedLimit) := by
  have hx : (0:ℝ) ≠ HUGE_VAL := by norm_num [HUGE_VAL]
  have hr : rangeExceeded { x := 0, y := HUGE_VAL, z := 0, t := 0 } := by
    rw [rangeExceeded_iff]
    left
    have hpi := Real.pi_lt_d2
    have hH : (0:ℝ) ≤ HUGE_VAL := by norm_num [HUGE_VAL]
    rw [show ({ x := 0, y := HUGE_VAL, z := 0, t := 0 } : PJ_COORD).y = HUGE_VAL from rfl,
      abs_of_nonneg hH]
    unfold HUGE_VAL M_HALFPI PJ_EPS_LAT
    have h2 : (4:ℝ) ≤ 2 ^ 1024 := by norm_num
    linarith
  have hprep : pj_inv_prepare P_c10
      { x := ((0:ℝ), HUGE_VAL).1, y := ((0:ℝ), HUGE_VAL).2, z := 0, t := 0 } =
      (proj_coord_error, some PJErr.latOrLonExceedLimit) :=
    pj_inv_prepare_angular_err P_c10 { x := 0, y := HUGE_VAL, z := 0, t := 0 } rfl rfl hx hr
  exact ⟨hx, rfl, pj_inv_of_prepare_err P_c10 (0, HUGE_VAL) PJErr.latOrLonExceedLimit rfl hprep⟩

/-- Claim C10 (amended): every sentinel check in the pipeline inspects only
the first coordinate component — Prepare and Finalize set `InvalidCoordinate`
exactly when the first component is the sentinel, regardless of the other
three; with non-angular input units Prepare raises no error for any finite
first component (a sentinel second component goes unnoticed); and whenever
the first component remains finite after Prepare and after dispatch, each of
the three entry points proceeds through dispatch and Finalize as if valid.
With angular input units, however, a finite first component with a sentinel
second component is rejected by the latitude range check
(`LatOrLonExceedsLimit`) before dispatch — in Prepare and hence at every
entry point. -/
theorem C10_sentinel_checks_amended :
    (∀ (P : PJ) (coo : PJ_COORD),
      (pj_inv_prepare P coo).2 = some PJErr.invalidXorY ↔ coo.x = HUGE_VAL) ∧
    (∀ (P : PJ) (coo : PJ_COORD),
      (pj_inv_finalize P coo).2 = some PJErr.invalidXorY ↔ coo.x = HUGE_VAL) ∧
    (∀ (P : PJ) (coo : PJ_COORD), P.right ≠ PJ_IO_UNITS.angular →
      coo.x ≠ HUGE_VAL → (pj_inv_prepare P coo).2 = none) ∧
    (∀ (P : PJ) (xy : ℝ × ℝ),
      P.skip_inv_prepare = false → P.skip_inv_finalize = false →
      (pj_inv_prepare P (coo2d xy)).1.x ≠ HUGE_VAL →
      (dispatch2d P (pj_inv_prepare P (coo2d xy)).1).1.x ≠ HUGE_VAL →
      pj_inv xy P =
        (((pj_inv_finalize P (dispatch2d P (pj_inv_prepare P (coo2d xy)).1).1).1.x,
          (pj_inv_finalize P (dispatch2d P (pj_inv_prepare P (coo2d xy)).1).1).1.y),
         (pj_inv_finalize P (dispatch2d P (pj_inv_prepare P (coo2d xy)).1).1).2)) ∧
    (∀ (P : PJ) (xyz : ℝ × ℝ × ℝ),
      P.skip_inv_prepare = false → P.skip_inv_finalize = false →
      (pj_inv_prepare P (coo3d xyz)).1.x ≠ HUGE_VAL →
      (dispatch3d P (pj_inv_prepare P (coo3d xyz)).1).1.x ≠ HUGE_VAL →
      pj_inv3d xyz P =
        (((pj_inv_finalize P (dispatch3d P (pj_inv_prepare P (coo3d xyz)).1).1).1.x,
          (pj_inv_finalize P (dispatch3d P (pj_inv_prepare P (coo3d xyz)).1).1).1.y,
          (pj_inv_finalize P (dispatch3d P (pj_inv_prepare P (coo3d xyz)).1).1).1.z),
         (pj_inv_finalize P (dispatch3d P (pj_inv_prepare P (coo3d xyz)).1).1).2)) ∧
    (∀ (P : PJ) (coo : PJ_COORD),
      P.skip_inv_prepare = false → P.skip_inv_finalize = false →
      (pj_inv_prepare P coo).1.x ≠ HUGE_VAL →
      (dispatch4d P (pj_inv_prepare P coo).1).1.x ≠ HUGE_VAL →
      pj_inv4d coo P = pj_inv_finalize P (dispatch4d P (pj_inv_prepare P coo).1).1) ∧
    (∀ (P : PJ) (coo : PJ_COORD), P.right = PJ_IO_UNITS.angular →
      P.axisswap = none → coo.x ≠ HUGE_VAL → coo.y = HUGE_VAL →
      pj_inv_prepare P coo = (proj_coord_error, some PJErr.latOrLonExceedLimit)) ∧
    (∀ (P : PJ) (xy : ℝ × ℝ), P.right = PJ_IO_UNITS.angular →
      P.axisswap = none → P.skip_inv_prepare = false →
      xy.1 ≠ HUGE_VAL → xy.2 = HUGE_VAL →
      pj_inv xy P = ((HUGE_VAL, HUGE_VAL), some PJErr.latOrLonExceedLimit)) ∧
    (∀ (P : PJ) (xyz : ℝ × ℝ × ℝ), P.right = PJ_IO_UNITS.angular →
      P.axisswap = none → P.skip_inv_prepare = false →
      xyz.1 ≠ HUGE_VAL → xyz.2.1 = HUGE_VAL →
      pj_inv3d xyz P =
        ((HUGE_VAL, HUGE_VAL, HUGE_VAL), some PJErr.latOrLonExceedLimit)) ∧
    (∀ (P : PJ) (coo : PJ_COORD), P.right = PJ_IO_UNITS.angular →
      P.axisswap = none → P.skip_inv_prepare = false →
      coo.x ≠ HUGE_VAL → coo.y = HUGE_VAL →
      pj_inv4d coo P = (proj_coord_error, some PJErr.latOrLonExceedLimit)) := by
  have hGen : ∀ (P : PJ) (coo : PJ_COORD), P.right = PJ_IO_UNITS.angular →
      P.axisswap = none → coo.x ≠ HUGE_VAL → coo.y = HUGE_VAL →
      pj_inv_prepare P coo = (proj_coord_error, some PJErr.latOrLonExceedLimit) := by
    intro P coo hu ha hx hy
    apply pj_inv_prepare_angular_err P coo hu ha hx
    rw [rangeExceeded_iff]
    left
    rw [hy, abs_of_nonneg (by norm_num [HUGE_VAL] : (0:ℝ) ≤ HUGE_VAL)]
    have hpi := Real.pi_lt_d2
    unfold HUGE_VAL M_HALFPI PJ_EPS_LAT
    have h4 : (4:ℝ) ≤ 2 ^ 1024 := by norm_num
    linarith
  refine ⟨?_, ?_, ?_, ?_, ?_, ?_, hGen, ?_, ?_, ?_⟩
  · intro P coo
    constructor
    · intro h
      by_contra hx
      unfold pj_inv_prepare at h
      rw [if_neg hx] at h
      rcases pj_inv_prepare_units_snd P (applyAxisswap P (helmertSubst P coo)) with h2 | h2 <;>
        rw [h2] at h <;> simp at h
    · intro hx
      unfold pj_inv_prepare
      rw [if_pos hx]
  · intro P coo
    constructor
    · intro h
      by_contra hx
      unfold pj_inv_finalize at h
      rw [if_neg hx] at h
      by_cases hl : P.left = PJ_IO_UNITS.angular <;>
        by_cases hne : P.right ≠ PJ_IO_UNITS.angular <;>
          simp [hl, hne] at h
    · intro hx
      unfold pj_inv_finalize
      rw [if_pos hx]
  · intro P coo hne hx
    unfold pj_inv_prepare
    rw [if_neg hx]
    unfold pj_inv_prepare_units
    rw [if_neg hne]
    rcases hR : P.right <;> simp [hR]
  · intro P xy hsp hsf hpr hd
    unfold coo2d at hpr hd
    unfold coo2d
    simp only [pj_inv, hsp, Bool.false_eq_true, if_false]
    rw [if_neg hpr, if_neg hd]
    simp only [hsf, Bool.false_eq_true, if_false]
  · intro P xyz hsp hsf hpr hd
    unfold coo3d at hpr hd
    unfold coo3d
    simp only [pj_inv3d, hsp, Bool.false_eq_true, if_false]
    rw [if_neg hpr, if_neg hd]
    simp only [hsf, Bool.false_eq_true, if_false]
  · intro P coo hsp hsf hpr hd
    simp only [pj_inv4d, hsp, Bool.false_eq_true, if_false]
    rw [if_neg hpr, if_neg hd]
    simp only [hsf, Bool.false_eq_true, if_false]
  · intro P xy hu ha hsp hx hy
    exact pj_inv_of_prepare_err P xy PJErr.latOrLonExceedLimit hsp
      (hGen P (coo2d xy) hu ha hx hy)
  · intro P xyz hu ha hsp hx hy
    exact pj_inv3d_of_prepare_err P xyz PJErr.latOrLonExceedLimit hsp
      (hGen P (coo3d xyz) hu ha hx hy)
  · intro P coo hu ha hsp hx hy
    exact pj_inv4d_of_prepare_err P coo PJErr.latOrLonExceedLimit hsp
      (hGen P coo hu ha hx hy)

/-- Witness for the amended C10: coordinates with finite first and sentinel
second component run the whole pipeline — with passthrough units each entry
point (2D, 3D, 4D, finalize active) invokes its core transform (shifting the
first slot by 2, 3, resp. 4) and Finalize returns the result; Prepare raises
no error on them; with angular units each entry point instead fails with the
range-limit error; and Prepare never reports `InvalidCoordinate` for a
finite first component. -/
theorem C10_sentinel_checks_amended_witness :
    pj_inv (0, HUGE_VAL) P_2 = ((2, HUGE_VAL), none) ∧
    pj_inv3d (0, HUGE_VAL, 0) P_3 = ((3, HUGE_VAL, 0), none) ∧
    pj_inv4d cooY P_4 = ({ x := 4, y := HUGE_VAL, z := 0, t := 0 }, none) ∧
    pj_inv (1, HUGE_VAL) P_ang = ((HUGE_VAL, HUGE_VAL), some PJErr.latOrLonExceedLimit) ∧
    pj_inv3d (1, HUGE_VAL, 0) P_ang =
      ((HUGE_VAL, HUGE_VAL, HUGE_VAL), some PJErr.latOrLonExceedLimit) ∧
    pj_inv4d { x := 1, y := HUGE_VAL, z := 0, t := 0 } P_ang =
      (proj_coord_error, some PJErr.latOrLonExceedLimit) ∧
    (pj_inv_prepare P_2 (coo2d (0, HUGE_VAL))).2 = none ∧
    (pj_inv_prepare P_base cooY).2 ≠ some PJErr.invalidXorY := by
  have hp2 : pj_inv_prepare P_2 (coo2d ((0:ℝ), HUGE_VAL)) = (coo2d ((0:ℝ), HUGE_VAL), none) :=
    pj_inv_prepare_whatever P_2 _ rfl rfl rfl (by norm_num [coo2d, HUGE_VAL])
  have hp3 : pj_inv_prepare P_3 (coo3d ((0:ℝ), HUGE_VAL, 0)) =
      (coo3d ((0:ℝ), HUGE_VAL, 0), none) :=
    pj_inv_prepare_whatever P_3 _ rfl rfl rfl (by norm_num [coo3d, HUGE_VAL])
  have hp4 : pj_inv_prepare P_4 cooY = (cooY, none) :=
    pj_inv_prepare_whatever P_4 cooY rfl rfl rfl (by norm_num [cooY, HUGE_VAL])
  have hd2 : dispatch2d P_2 (coo2d ((0:ℝ), HUGE_VAL)) =
      ({ x := 2, y := HUGE_VAL, z := 0, t := 0 }, none) := by
    norm_num [dispatch2d, P_2, P_base, setlp, tf2, coo2d]
  have hd3 : dispatch3d P_3 (coo3d ((0:ℝ), HUGE_VAL, 0)) =
      ({ x := 3, y := HUGE_VAL, z := 0, t := 0 }, none) := by
    norm_num [dispatch3d, P_3, P_base, setlpz, tf3, coo3d]
  have hd4 : dispatch4d P_4 cooY = ({ x := 4, y := HUGE_VAL, z := 0, t := 0 }, none) := by
    norm_num [dispatch4d, P_4, P_base, tf4, cooY]
  have hf2 : pj_inv_finalize P_2 ({ x := 2, y := HUGE_VAL, z := 0, t := 0 } : PJ_COORD) =
      ({ x := 2, y := HUGE_VAL, z := 0, t := 0 }, none) :=
    pj_inv_finalize_nonangular P_2 _ (by simp [P_2, P_base]) (by norm_num [HUGE_VAL])
  have hf3 : pj_inv_finalize P_3 ({ x := 3, y := HUGE_VAL, z := 0, t := 0 } : PJ_COORD) =
      ({ x := 3, y := HUGE_VAL, z := 0, t := 0 }, none) :=
    pj_inv_finalize_nonangular P_3 _ (by simp [P_3, P_base]) (by norm_num [HUGE_VAL])
  have hf4 : pj_inv_finalize P_4 ({ x := 4, y := HUGE_VAL, z := 0, t := 0 } : PJ_COORD) =
      ({ x := 4, y := HUGE_VAL, z := 0, t := 0 }, none) :=
    pj_inv_finalize_nonangular P_4 _ (by simp [P_4, P_base]) (by norm_num [HUGE_VAL])
  refine ⟨?_, ?_, ?_, ?_, ?_, ?_, ?_, ?_⟩
  · rw [C10_sentinel_checks_amended.2.2.2.1 P_2 ((0:ℝ), HUGE_VAL) rfl rfl
      (by rw [hp2]; norm_num [coo2d, HUGE_VAL])
      (by simp only [hp2, hd2]; norm_num [HUGE_VAL])]
    simp only [hp2, hd2, hf2]
  · rw [C10_sentinel_checks_amended.2.2.2.2.1 P_3 ((0:ℝ), HUGE_VAL, 0) rfl rfl
      (by rw [hp3]; norm_num [coo3d, HUGE_VAL])
      (by simp only [hp3, hd3]; norm_num [HUGE_VAL])]
    simp only [hp3, hd3, hf3]
  · rw [C10_sentinel_checks_amended.2.2.2.2.2.1 P_4 cooY rfl rfl
      (by rw [hp4]; norm_num [cooY, HUGE_VAL])
      (by simp only [hp4, hd4]; norm_num [HUGE_VAL])]
    simp only [hp4, hd4, hf4]
  · exact C10_sentinel_checks_amended.2.2.2.2.2.2.2.1 P_ang ((1:ℝ), HUGE_VAL)
      rfl rfl rfl (by norm_num [HUGE_VAL]) rfl
  · exact C10_sentinel_checks_amended.2.2.2.2.2.2.2.2.1 P_ang ((1:ℝ), HUGE_VAL, 0)
      rfl rfl rfl (by norm_num [HUGE_VAL]) rfl
  · exact C10_sentinel_checks_amended.2.2.2.2.2.2.2.2.2 P_ang
      { x := 1, y := HUGE_VAL, z := 0, t := 0 } rfl rfl rfl
      (by norm_num [HUGE_VAL]) rfl
  · exact C10_sentinel_checks_amended.2.2.1 P_2 (coo2d ((0:ℝ), HUGE_VAL))
      (by simp [P_2, P_base]) (by norm_num [coo2d, HUGE_VAL])
  · intro hcon
    exact (by norm_num [cooY, HUGE_VAL] : cooY.x ≠ HUGE_VAL)
      ((C10_sentinel_checks_amended.1 P_base cooY).mp hcon)

end
